import Mathlib

/-!
Shallow embedding of the `comms_service` repository: two near-duplicate
batch pipelines (`credit_card_reject.go` and `aadhaar_notifications.go.go`)
that scan status history for failure conditions, enrich each candidate with
profile and device data, resolve the next attempt number and a per-attempt
delivery policy, compute the remaining delay, and emit notification records.

Modelling conventions:
* Timestamps, the current time and computed delays are integers counting
  nanoseconds, exactly as in Go's `time.Time` / `time.Duration`.  The
  source's `Delay float64` field holds `Duration.Seconds()`, i.e. the
  nanosecond count divided by 10^9 as a `float64`; that conversion
  preserves sign and zero exactly, so the `newDelay < 0` decision and the
  `newDelay == 0` boundary in the source are modelled exactly by the
  integer comparison, and the model keeps the nanosecond count itself.
* `uint32` identifiers are `Nat` (no arithmetic is performed on them),
  Go `int` fields are `Int`.
* Database tables are lists of rows in stored order; each Go query is
  translated into a pure function over those lists, mirroring its WHERE /
  ORDER BY / LIMIT clauses.  `gorm`'s `Scan` leaves the destination struct
  at its zero value when no row matches, which the model reproduces.
* The fallible per-candidate lookups (`notification_status` and
  `notification_config`) are parameterised by oracles returning `Except`,
  modelling the `error` return of the transport; `pureOracles` instantiates
  them with the error-free query semantics.
-/

/-- First-occurrence deduplication with an explicit seen-set, mirroring the
`processedMobileNumbers map[string]struct{}` pattern in both `main`s and the
semantics of SQL `SELECT DISTINCT` (one output row per distinct value, in
first-appearance order). -/
def dedupFirstAux [DecidableEq α] (seen : List α) : List α → List α
  | [] => []
  | x :: xs =>
    if x ∈ seen then dedupFirstAux seen xs
    else x :: dedupFirstAux (x :: seen) xs

/-- First-occurrence deduplication of a list. -/
def dedupFirst [DecidableEq α] (l : List α) : List α :=
  dedupFirstAux [] l

/-- `ORDER BY <time> DESC LIMIT 1`: the element with the greatest key, the
earliest-positioned one on ties. -/
def latestByQ (f : α → Int) : List α → Option α
  | [] => none
  | x :: xs =>
    match latestByQ f xs with
    | none => some x
    | some y => if f x < f y then some y else some x

/-- `UserDetails` from the `users` table (identical in both source files). -/
structure UserDetails where
  id : Nat
  fullName : String
  mobileNumber : String
  plainMobileNumber : String
deriving DecidableEq

/-- `CustomHeaderDetails` from `custom_headers` (identical in both files). -/
structure CustomHeaderDetails where
  xPlatform : String
  xDeviceToken : String
deriving DecidableEq

/-- `NotificationStatusDetails` from `notification_status` (identical in
both files). -/
structure NotificationStatusDetails where
  eventName : String
  attempt : Int
deriving DecidableEq

/-- `NotificationConfigDetails` from `notification_config` (identical in
both files). -/
structure NotificationConfigDetails where
  delay : Int
  channel : String
  eventName : String
  eventId : Int
deriving DecidableEq

/-- The final `Notification` struct (identical in both files).  The
`Metadata map[string]string` field is modelled as an association list with
the fixed keys the source writes. -/
structure Notification where
  event : String
  delay : Int
  userId : Nat
  mobile : String
  plainMobile : String
  currentStatus : String
  attempt : Int
  source : String
  channel : String
  metadata : List (String × String)
  deviceToken : String
  eventId : Int
deriving DecidableEq

/-- Go's zero value `Notification{}`, returned by `buildNotification` for
past-due (suppressed) candidates. -/
def emptyNotification : Notification :=
  { event := "", delay := 0, userId := 0, mobile := "", plainMobile := "",
    currentStatus := "", attempt := 0, source := "", channel := "",
    metadata := [], deviceToken := "", eventId := 0 }

/-- A row of the `custom_headers` table (columns the query touches). -/
structure CustomHeaderRow where
  userId : Nat
  xPlatform : String
  xDeviceToken : String
  updatedAt : Int
deriving DecidableEq

/-- A row of the `notification_status` table (columns the query touches). -/
structure NotificationStatusRow where
  userId : Nat
  eventName : String
  attempt : Int
  updatedAt : Int
deriving DecidableEq

/-- A row of the `notification_config` table (columns the query touches). -/
structure NotificationConfigRow where
  eventName : String
  attempt : Int
  delay : Int
  channel : String
  eventId : Int
deriving DecidableEq

/-- Lookup in the map built by `fetchUserDetails`: Go map assignment
overwrites, so the last row of the result set with a given mobile number
wins. -/
def userDetailsMapLookup (userDetails : List UserDetails) (m : String) : Option UserDetails :=
  userDetails.reverse.find? (fun d => d.mobileNumber == m)

/-- `fetchCustomHeader` (identical in both files): folds the rows returned
by the DB (already `ORDER BY user_id, updated_at DESC`) into a map,
inserting only when the key is absent (`if _, exists := m[k]; !exists`). -/
def fetchCustomHeader (customHeaders : List CustomHeaderRow) : List (Nat × CustomHeaderDetails) :=
  customHeaders.foldl
    (fun m h =>
      match m.lookup h.userId with
      | some _ => m
      | none => m ++ [(h.userId, ⟨h.xPlatform, h.xDeviceToken⟩)])
    []

/-- The first row of the result set for a given user id, as header details. -/
def firstHeaderFor (customHeaders : List CustomHeaderRow) (id : Nat) : Option CustomHeaderDetails :=
  (customHeaders.find? (fun r => r.userId == id)).map (fun r => ⟨r.xPlatform, r.xDeviceToken⟩)

/-- `fetchNotificationStatus` (identical in both files): `WHERE user_id = ?
AND event_name = ? ORDER BY updated_at DESC LIMIT 1`; with no matching row,
`Scan` leaves the zero value `{EventName: "", Attempt: 0}`. -/
def fetchNotificationStatus (ledger : List NotificationStatusRow) (userId : Nat) (eventName : String) : NotificationStatusDetails :=
  match latestByQ (fun r => r.updatedAt) (ledger.filter (fun r => r.userId == userId && r.eventName == eventName)) with
  | some r => ⟨r.eventName, r.attempt⟩
  | none => ⟨"", 0⟩

/-- The `notification_config` query shared by both variants: `WHERE
event_name = ? AND attempt = ? LIMIT 1` (no ORDER BY: the stored order's
first match), zero value when no row matches. -/
def queryNotificationConfig (configs : List NotificationConfigRow) (eventName : String) (attempt : Int) : NotificationConfigDetails :=
  match configs.find? (fun c => c.eventName == eventName && c.attempt == attempt) with
  | some c => ⟨c.delay, c.channel, c.eventName, c.eventId⟩
  | none => ⟨0, "", "", 0⟩

/-- The attempt-resolution logic, inlined identically in both `main`s:
`attempt := 1; if notificationStatus.EventName != "" { attempt =
notificationStatus.Attempt + 1 }`. -/
def resolveAttempt (notificationStatus : NotificationStatusDetails) : Int :=
  if notificationStatus.eventName ≠ "" then notificationStatus.attempt + 1 else 1

/-- The two per-candidate database calls, as oracles whose `Except` result
models the `error` return of the transport. `config` returns the raw query
outcome, before each variant's own `fetchNotificationConfig` wrapping. -/
structure Oracles where
  status : Nat → String → Except String NotificationStatusDetails
  config : String → Int → Except String NotificationConfigDetails

/-- Error-free oracles backed by table snapshots. -/
def pureOracles (ledger : List NotificationStatusRow) (configs : List NotificationConfigRow) : Oracles :=
  { status := fun userId eventName => .ok (fetchNotificationStatus ledger userId eventName),
    config := fun eventName attempt => .ok (queryNotificationConfig configs eventName attempt) }

/-- `printNotifications` (identical in both files): walks the list, skips
records with an empty `Event`, prints the rest in order and counts them.
Modelled as (rendered records in print order, printed count). -/
def printNotifications (notifications : List Notification) : List Notification × Nat :=
  notifications.foldl
    (fun acc n => if n.event == "" then acc else (acc.1 ++ [n], acc.2 + 1))
    ([], 0)

/-- The shared shape of the per-candidate loop of both `main`s: each
candidate appends at most one notification and at most one error, in order. -/
def processFold (f : α → Option Notification × Option String) (users : List α) : List Notification × List String :=
  users.foldl (fun acc u => (acc.1 ++ ((f u).1).toList, acc.2 ++ ((f u).2).toList)) ([], [])

/-- The end-of-run numbered error report: `Error 1: ...`, `Error 2: ...`
(identical in both `main`s). -/
def reportErrors (errs : List String) : List (Nat × String) :=
  errs.enum.map (fun p => (p.1 + 1, p.2))

/-- What a whole run shows the user: the rendered notifications, the
printed count, and the numbered error report. -/
structure RunOutput where
  rendered : List Notification
  printedCount : Nat
  reportedErrors : List (Nat × String)
deriving DecidableEq

namespace CreditCard

/-- A row of the `card_statuses` table (columns the query touches). -/
structure CardStatusRow where
  mobileNumber : String
  status : String
  createdAt : Int
deriving DecidableEq

/-- `UserFlowResult` of `credit_card_reject.go`. -/
structure UserFlowResult where
  mobileNumber : String
  reasons : String
  createdAt : Int
deriving DecidableEq

/-- `UserFlowWithEvent` of `credit_card_reject.go`. -/
structure UserFlowWithEvent where
  userFlow : UserFlowResult
  eventType : String
deriving DecidableEq

/-- The WHERE clause of the `card_statuses` query: `status = 'DECLINED' AND
created_at >= NOW() - INTERVAL '<lookbackDays> day'`. -/
def ccQualifies (now : Int) (lookbackDays : Int) (r : CardStatusRow) : Bool :=
  r.status == "DECLINED" && decide (now - lookbackDays * 86400000000000 ≤ r.createdAt)

/-- `fetchCreditCardRejectedUsers`: `SELECT DISTINCT cs.mobile_number,
cs.created_at FROM card_statuses cs ... WHERE cs.status = 'DECLINED' AND
cs.created_at >= NOW() - INTERVAL '...'`.  The DISTINCT is over the
selected `(mobile_number, created_at)` pair; `Reasons` is scanned but never
selected, so it stays at its zero value `""`.  Rows whose mobile number is
empty are skipped by the Go loop.  Pagination (`LIMIT ? OFFSET ?` until a
short page) walks the whole result set over a stable snapshot, so the model
is the unpaginated result. -/
def fetchCreditCardRejectedUsers (now : Int) (lookbackDays : Int) (cardStatuses : List CardStatusRow) : List UserFlowWithEvent :=
  (dedupFirst ((cardStatuses.filter (ccQualifies now lookbackDays)).map
      (fun r => (r.mobileNumber, r.createdAt)))).filterMap
    (fun p =>
      if p.1 == "" then none
      else some ⟨⟨p.1, "", p.2⟩, "CREDIT_CARD_REJECTED"⟩)

/-- `fetchNotificationConfig` of `credit_card_reject.go`: a query error is
propagated to the caller (`return NotificationConfigDetails{}, err`); an
error-free result is returned as-is, whether or not a row matched. -/
def fetchNotificationConfig (raw : Except String NotificationConfigDetails) : Except String NotificationConfigDetails :=
  match raw with
  | .error e => .error e
  | .ok c => .ok c

/-- `buildNotification` of `credit_card_reject.go`: `scheduledTime =
CreatedAt + Delay` (the configured delay is in seconds, hence the 10^9
factor in nanoseconds), `newDelay = scheduledTime - now`; a strictly
negative `newDelay` returns the zero value `Notification{}` (suppressed);
`CurrentStatus` is hard-coded `"DECLINED"`; `Source` falls back to the
deployment default when the environment value is empty. -/
def buildNotification (userFlow : UserFlowResult) (userDetail : UserDetails)
    (customHeader : CustomHeaderDetails) (notificationConfig : NotificationConfigDetails)
    (attempt : Int) (_eventName : String) (now : Int) (sourceEnv : String) : Notification :=
  let source := if sourceEnv = "" then "legacy credit card rejected default" else sourceEnv
  let scheduledTime := userFlow.createdAt + notificationConfig.delay * 1000000000
  let newDelay := scheduledTime - now
  if newDelay < 0 then emptyNotification
  else
    { event := notificationConfig.eventName
      delay := newDelay
      userId := userDetail.id
      mobile := userFlow.mobileNumber
      plainMobile := userDetail.plainMobileNumber
      currentStatus := "DECLINED"
      attempt := attempt
      source := source
      channel := notificationConfig.channel
      metadata := [("Name", userDetail.fullName), ("Reasons", userFlow.reasons)]
      deviceToken := customHeader.xDeviceToken
      eventId := notificationConfig.eventId }

/-- The body of the per-candidate loop in `main` of `credit_card_reject.go`:
resolve user details (skip silently when absent or id 0), substitute the
placeholder header when absent, fetch the notification status (collect the
error and skip on failure), resolve the attempt, fetch the config (collect
the error and skip on failure), skip silently when no config matched, else
build the notification. -/
def processOne (o : Oracles) (userDetails : List UserDetails)
    (headersMap : List (Nat × CustomHeaderDetails)) (now : Int) (sourceEnv : String)
    (uw : UserFlowWithEvent) : Option Notification × Option String :=
  match userDetailsMapLookup userDetails uw.userFlow.mobileNumber with
  | none => (none, none)
  | some userDetail =>
    if userDetail.id = 0 then (none, none)
    else
      let customHeader :=
        match headersMap.lookup userDetail.id with
        | some h => h
        | none => ⟨"Unknown", "Not Available"⟩
      match o.status userDetail.id uw.eventType with
      | .error e => (none, some e)
      | .ok notificationStatus =>
        let attempt := resolveAttempt notificationStatus
        match fetchNotificationConfig (o.config uw.eventType attempt) with
        | .error e => (none, some e)
        | .ok notificationConfig =>
          if notificationConfig.eventName = "" then (none, none)
          else
            (some (buildNotification uw.userFlow userDetail customHeader notificationConfig attempt uw.eventType now sourceEnv), none)

/-- The per-candidate loop of `main`, collecting notifications and errors. -/
def processUsers (o : Oracles) (userDetails : List UserDetails)
    (headersMap : List (Nat × CustomHeaderDetails)) (now : Int) (sourceEnv : String)
    (users : List UserFlowWithEvent) : List Notification × List String :=
  processFold (processOne o userDetails headersMap now sourceEnv) users

/-- `main` of `credit_card_reject.go` after a successful DB connection: the
candidate fetch outcome is the `Except` argument (`os.Exit(1)` on error
modelled by `.error`); an empty candidate set returns early with no output;
otherwise mobile numbers are deduplicated, details and headers are batch
fetched, the per-candidate loop runs, and the run output is the printed
notifications plus the numbered error report. -/
def run (fetched : Except String (List UserFlowWithEvent))
    (userRows : List UserDetails) (headerRows : List CustomHeaderRow)
    (o : Oracles) (now : Int) (sourceEnv : String) : Except String RunOutput :=
  match fetched with
  | .error e => .error e
  | .ok allUsers =>
    if allUsers.length = 0 then .ok ⟨[], 0, []⟩
    else
      let mobileNumbers := dedupFirst (allUsers.map (fun u => u.userFlow.mobileNumber))
      let userDetailsRows := userRows.filter (fun u => mobileNumbers.contains u.mobileNumber)
      let userIDs := (mobileNumbers.filterMap (userDetailsMapLookup userDetailsRows)).filterMap
        (fun d => if d.id = 0 then none else some d.id)
      let headersMap := fetchCustomHeader (headerRows.filter (fun r => userIDs.contains r.userId))
      let res := processUsers o userDetailsRows headersMap now sourceEnv allUsers
      let printed := printNotifications res.1
      .ok ⟨printed.1, printed.2, reportErrors res.2⟩

end CreditCard

namespace Aadhaar

/-- A row of the `flow_statuses` table (columns the query touches). -/
structure FlowStatusRow where
  mobileNumber : String
  status : String
  createdAt : Int
deriving DecidableEq

/-- `UserFlowResult` of `aadhaar_notifications.go.go`. -/
structure UserFlowResult where
  mobileNumber : String
  status : String
  createdAt : Int
deriving DecidableEq

/-- `UserFlowWithEvent` of `aadhaar_notifications.go.go`. -/
structure UserFlowWithEvent where
  userFlow : UserFlowResult
  eventType : String
deriving DecidableEq

/-- The `rejectStatuses` slice of `fetchUsers`. -/
def rejectStatuses : List String :=
  ["AADHAAR_EXPIRED_VID", "AADHAAR_FORBIDDEN_ERR",
   "AADHAAR_INVALID", "AADHAAR_INVALID_VID", "AADHAAR_MOBILE_ERR",
   "AADHAAR_SUSPENDED"]

/-- The `failureStatuses` slice of `fetchUsers`. -/
def failureStatuses : List String :=
  ["AADHAAR_EXCEEDED_OTP", "AADHAAR_DEMOAUTH_FAILED", "AADHAAR_OTP_FAILED", "AADHAAR_SERVER_ERR",
   "AADHAR_VERIFY_4XX", "AADHAR_VERIFY_500", "AADHAR_VERIFY_INVALID_OTP",
   "AADHAAR_SENDOTP_TIMEOUT", "AADHAR_VERIFY_TIMEOUT", "AADHAR_VERIFY_MAXOTP_ATTEMPS", "AADHAAR_RATELIMIT"]

/-- The three event types the outer WHERE clause of `fetchUsers` keeps. -/
def recognizedEventTypes : List String :=
  ["AADHAR_FORM_DROPOFF", "AADHAAR_REJECT", "AADHAAR_FAILURE"]

/-- The CASE expression of the `fetchUsers` query.  The `NOT EXISTS`
subquery scans the whole `flow_statuses` table (it is not restricted to the
lookback window), so the full table is a parameter. -/
def classifyEventType (flowStatuses : List FlowStatusRow) (r : FlowStatusRow) : String :=
  if r.status == "PAN_FORM" &&
      !(flowStatuses.any (fun fs2 => fs2.mobileNumber == r.mobileNumber && fs2.status == "AADHAR")) then
    "AADHAR_FORM_DROPOFF"
  else if rejectStatuses.contains r.status then "AADHAAR_REJECT"
  else if failureStatuses.contains r.status then "AADHAAR_FAILURE"
  else "UNKNOWN"

/-- The lookback window of `fetchUsers`: `created_at >= NOW() - INTERVAL '7 day'`. -/
def inWindow (now : Int) (r : FlowStatusRow) : Bool :=
  decide (now - 7 * 86400000000000 ≤ r.createdAt)

/-- `fetchUsers` of `aadhaar_notifications.go.go`: rank the window rows per
mobile number by `created_at` descending (`ROW_NUMBER ... PARTITION BY
mobile_number`), keep rank 1, classify it, and keep it only when the event
type is one of the three recognized ones.  After the `rn = 1` filter each
mobile number contributes at most one row, so the outer `SELECT DISTINCT`
is a no-op.  Rank-1 ties and result order are left to the database; the
model takes the first-positioned row among maxima and emits subjects in
first-appearance order.  Pagination is modelled as in the other variant. -/
def fetchUsers (now : Int) (flowStatuses : List FlowStatusRow) : List UserFlowWithEvent :=
  let wrows := flowStatuses.filter (inWindow now)
  (dedupFirst (wrows.map (fun r => r.mobileNumber))).filterMap
    (fun m =>
      match latestByQ (fun r => r.createdAt) (wrows.filter (fun r => r.mobileNumber == m)) with
      | none => none
      | some r =>
        let et := classifyEventType flowStatuses r
        if recognizedEventTypes.contains et then
          some ⟨⟨r.mobileNumber, r.status, r.createdAt⟩, et⟩
        else none)

/-- `fetchNotificationConfig` of `aadhaar_notifications.go.go`: a query
error OR an empty `EventName` both collapse to the zero value with a `nil`
error (`if err != nil || notificationConfig.EventName == "" { return
NotificationConfigDetails{}, nil }`) — the transport error is swallowed. -/
def fetchNotificationConfig (raw : Except String NotificationConfigDetails) : Except String NotificationConfigDetails :=
  match raw with
  | .error _ => .ok ⟨0, "", "", 0⟩
  | .ok c => if c.eventName = "" then .ok ⟨0, "", "", 0⟩ else .ok c

/-- `buildNotification` of `aadhaar_notifications.go.go`: same delay logic
as the other variant; `CurrentStatus` comes from the flow row, the metadata
map has only the `Name` key, and the source default differs. -/
def buildNotification (userFlow : UserFlowResult) (userDetail : UserDetails)
    (customHeader : CustomHeaderDetails) (notificationConfig : NotificationConfigDetails)
    (attempt : Int) (_eventName : String) (now : Int) (sourceEnv : String) : Notification :=
  let source := if sourceEnv = "" then "legacy card default" else sourceEnv
  let scheduledTime := userFlow.createdAt + notificationConfig.delay * 1000000000
  let newDelay := scheduledTime - now
  if newDelay < 0 then emptyNotification
  else
    { event := notificationConfig.eventName
      delay := newDelay
      userId := userDetail.id
      mobile := userFlow.mobileNumber
      plainMobile := userDetail.plainMobileNumber
      currentStatus := userFlow.status
      attempt := attempt
      source := source
      channel := notificationConfig.channel
      metadata := [("Name", userDetail.fullName)]
      deviceToken := customHeader.xDeviceToken
      eventId := notificationConfig.eventId }

/-- The body of the per-candidate loop in `main` of
`aadhaar_notifications.go.go`.  Identical to the other variant except for
the placeholder header (`XDeviceToken: ""`) and the config wrapper that
swallows query errors. -/
def processOne (o : Oracles) (userDetails : List UserDetails)
    (headersMap : List (Nat × CustomHeaderDetails)) (now : Int) (sourceEnv : String)
    (uw : UserFlowWithEvent) : Option Notification × Option String :=
  match userDetailsMapLookup userDetails uw.userFlow.mobileNumber with
  | none => (none, none)
  | some userDetail =>
    if userDetail.id = 0 then (none, none)
    else
      let customHeader :=
        match headersMap.lookup userDetail.id with
        | some h => h
        | none => ⟨"Unknown", ""⟩
      match o.status userDetail.id uw.eventType with
      | .error e => (none, some e)
      | .ok notificationStatus =>
        let attempt := resolveAttempt notificationStatus
        match fetchNotificationConfig (o.config uw.eventType attempt) with
        | .error e => (none, some e)
        | .ok notificationConfig =>
          if notificationConfig.eventName = "" then (none, none)
          else
            (some (buildNotification uw.userFlow userDetail customHeader notificationConfig attempt uw.eventType now sourceEnv), none)

/-- The per-candidate loop of `main`, collecting notifications and errors. -/
def processUsers (o : Oracles) (userDetails : List UserDetails)
    (headersMap : List (Nat × CustomHeaderDetails)) (now : Int) (sourceEnv : String)
    (users : List UserFlowWithEvent) : List Notification × List String :=
  processFold (processOne o userDetails headersMap now sourceEnv) users

/-- `main` of `aadhaar_notifications.go.go` after a successful DB
connection.  Unlike the other variant there is no early return on an empty
candidate set: the batch lookups run on empty key sets and the loop does
nothing. -/
def run (fetched : Except String (List UserFlowWithEvent))
    (userRows : List UserDetails) (headerRows : List CustomHeaderRow)
    (o : Oracles) (now : Int) (sourceEnv : String) : Except String RunOutput :=
  match fetched with
  | .error e => .error e
  | .ok allUsers =>
    let mobileNumbers := dedupFirst (allUsers.map (fun u => u.userFlow.mobileNumber))
    let userDetailsRows := userRows.filter (fun u => mobileNumbers.contains u.mobileNumber)
    let userIDs := (mobileNumbers.filterMap (userDetailsMapLookup userDetailsRows)).filterMap
      (fun d => if d.id = 0 then none else some d.id)
    let headersMap := fetchCustomHeader (headerRows.filter (fun r => userIDs.contains r.userId))
    let res := processUsers o userDetailsRows headersMap now sourceEnv allUsers
    let printed := printNotifications res.1
    .ok ⟨printed.1, printed.2, reportErrors res.2⟩

end Aadhaar

/-! ### Library lemmas about the embedding's building blocks -/

theorem mem_dedupFirstAux [DecidableEq α] (seen : List α) (l : List α) (a : α) :
    a ∈ dedupFirstAux seen l ↔ a ∈ l ∧ a ∉ seen := by
  induction l generalizing seen with
  | nil => simp [dedupFirstAux]
  | cons x xs ih =>
    by_cases hx : x ∈ seen
    · rw [dedupFirstAux, if_pos hx, ih]
      constructor
      · rintro ⟨h1, h2⟩
        exact ⟨List.mem_cons_of_mem _ h1, h2⟩
      · rintro ⟨h1, h2⟩
        rcases List.mem_cons.mp h1 with h1 | h1
        · exact absurd (h1 ▸ hx) h2
        · exact ⟨h1, h2⟩
    · rw [dedupFirstAux, if_neg hx]
      by_cases hax : a = x
      · subst hax
        simp [hx]
      · constructor
        · intro h
          rcases List.mem_cons.mp h with h | h
          · exact absurd h hax
          · obtain ⟨h1, h2⟩ := (ih (x :: seen)).mp h
            exact ⟨List.mem_cons_of_mem _ h1, fun hs => h2 (List.mem_cons_of_mem _ hs)⟩
        · rintro ⟨h1, h2⟩
          rcases List.mem_cons.mp h1 with h | h
          · exact absurd h hax
          · refine List.mem_cons_of_mem _ ((ih (x :: seen)).mpr ⟨h, fun hs => ?_⟩)
            rcases List.mem_cons.mp hs with h' | h'
            · exact hax h'
            · exact h2 h'

theorem nodup_dedupFirstAux [DecidableEq α] (seen : List α) (l : List α) :
    (dedupFirstAux seen l).Nodup := by
  induction l generalizing seen with
  | nil => simp [dedupFirstAux]
  | cons x xs ih =>
    by_cases hx : x ∈ seen
    · rw [dedupFirstAux, if_pos hx]
      exact ih seen
    · rw [dedupFirstAux, if_neg hx]
      refine List.Nodup.cons (fun hmem => ?_) (ih _)
      exact ((mem_dedupFirstAux _ _ _).mp hmem).2 (List.mem_cons_self _ _)

theorem mem_dedupFirst [DecidableEq α] (l : List α) (a : α) :
    a ∈ dedupFirst l ↔ a ∈ l := by
  rw [dedupFirst, mem_dedupFirstAux]
  simp

theorem nodup_dedupFirst [DecidableEq α] (l : List α) : (dedupFirst l).Nodup :=
  nodup_dedupFirstAux [] l

theorem latestByQ_eq_none (f : α → Int) (l : List α) :
    latestByQ f l = none ↔ l = [] := by
  cases l with
  | nil => simp [latestByQ]
  | cons x xs =>
    simp only [latestByQ]
    cases latestByQ f xs with
    | none => simp
    | some y =>
      by_cases h : f x < f y <;> simp [h]

theorem latestByQ_mem (f : α → Int) (l : List α) (r : α)
    (h : latestByQ f l = some r) : r ∈ l := by
  induction l with
  | nil => simp [latestByQ] at h
  | cons x xs ih =>
    cases hx : latestByQ f xs with
    | none =>
      simp only [latestByQ, hx] at h
      exact List.mem_cons.mpr (Or.inl (Option.some.inj h).symm)
    | some y =>
      simp only [latestByQ, hx] at h
      by_cases hlt : f x < f y
      · rw [if_pos hlt] at h
        exact List.mem_cons_of_mem _ (ih (hx.trans (congrArg some (Option.some.inj h))))
      · rw [if_neg hlt] at h
        exact List.mem_cons.mpr (Or.inl (Option.some.inj h).symm)

theorem latestByQ_max (f : α → Int) (l : List α) :
    ∀ r, latestByQ f l = some r → ∀ x ∈ l, f x ≤ f r := by
  induction l with
  | nil => intro r h; simp [latestByQ] at h
  | cons x xs ih =>
    intro r h
    cases hx : latestByQ f xs with
    | none =>
      simp only [latestByQ, hx] at h
      have hxs : xs = [] := (latestByQ_eq_none f xs).mp hx
      subst hxs
      intro z hz
      rcases List.mem_cons.mp hz with hz | hz
      · rw [hz, ← Option.some.inj h]
      · simp at hz
    | some y =>
      simp only [latestByQ, hx] at h
      intro z hz
      by_cases hlt : f x < f y
      · rw [if_pos hlt] at h
        have hr : y = r := Option.some.inj h
        rcases List.mem_cons.mp hz with hz | hz
        · exact hz ▸ (hr ▸ le_of_lt hlt)
        · exact ih r (hr ▸ hx) z hz
      · rw [if_neg hlt] at h
        have hr : x = r := Option.some.inj h
        rcases List.mem_cons.mp hz with hz | hz
        · exact hz ▸ hr ▸ le_refl _
        · exact hr ▸ le_trans (ih y hx z hz) (not_lt.mp hlt)

theorem filterMap_filter_key_of_not_mem [DecidableEq β]
    {keys : List β} {g : β → Option γ} {key : γ → β}
    (hkey : ∀ k e, g k = some e → key e = k) {m : β} (hm : m ∉ keys) :
    (keys.filterMap g).filter (fun x => key x == m) = [] := by
  induction keys with
  | nil => rfl
  | cons k ks ih =>
    have hmks : m ∉ ks := fun h => hm (List.mem_cons_of_mem _ h)
    have hmk : m ≠ k := fun h => hm (h ▸ List.mem_cons_self _ _)
    rw [List.filterMap_cons]
    cases hk : g k with
    | none => exact ih hmks
    | some e' =>
      rw [List.filter_cons]
      have hke : key e' = k := hkey _ _ hk
      have : (key e' == m) = false := beq_eq_false_iff_ne.mpr (fun h => hmk (h.symm.trans hke))
      rw [this]
      simp only [Bool.false_eq_true, if_false]
      exact ih hmks

theorem filterMap_filter_key [DecidableEq β]
    {keys : List β} {g : β → Option γ} {key : γ → β}
    (hkey : ∀ k e, g k = some e → key e = k) (hnd : keys.Nodup) {m : β} {e : γ}
    (hm : m ∈ keys) (hg : g m = some e) :
    (keys.filterMap g).filter (fun x => key x == m) = [e] := by
  induction keys with
  | nil => simp at hm
  | cons k ks ih =>
    rcases List.nodup_cons.mp hnd with ⟨hknd, hksnd⟩
    by_cases hmk : m = k
    · subst hmk
      rw [List.filterMap_cons, hg, List.filter_cons]
      have : (key e == m) = true := beq_iff_eq.mpr (hkey _ _ hg)
      rw [this]
      simp only [if_true]
      rw [filterMap_filter_key_of_not_mem hkey hknd]
    · have hmks : m ∈ ks := by
        rcases List.mem_cons.mp hm with h | h
        · exact absurd h hmk
        · exact h
      rw [List.filterMap_cons]
      cases hk : g k with
      | none => exact ih hksnd hmks
      | some e' =>
        rw [List.filter_cons]
        have hke : key e' = k := hkey _ _ hk
        have : (key e' == m) = false := beq_eq_false_iff_ne.mpr (fun h => hmk (h.symm.trans hke))
        rw [this]
        simp only [Bool.false_eq_true, if_false]
        exact ih hksnd hmks

theorem processFold_aux (f : α → Option Notification × Option String)
    (users : List α) (acc : List Notification × List String) :
    users.foldl (fun acc u => (acc.1 ++ ((f u).1).toList, acc.2 ++ ((f u).2).toList)) acc =
      (acc.1 ++ users.filterMap (fun u => (f u).1),
       acc.2 ++ users.filterMap (fun u => (f u).2)) := by
  induction users generalizing acc with
  | nil => simp
  | cons u us ih =>
    rw [List.foldl_cons, ih]
    cases h1 : (f u).1 <;> cases h2 : (f u).2 <;>
      simp [List.filterMap_cons, h1, h2]

/-- The per-candidate loop appends, per candidate in order, exactly the
notification and exactly the error that candidate produced. -/
theorem processFold_eq (f : α → Option Notification × Option String) (users : List α) :
    processFold f users =
      (users.filterMap (fun u => (f u).1), users.filterMap (fun u => (f u).2)) := by
  simpa [processFold] using processFold_aux f users ([], [])

theorem printNotifications_aux (ns : List Notification) (acc : List Notification × Nat) :
    ns.foldl (fun acc n => if n.event == "" then acc else (acc.1 ++ [n], acc.2 + 1)) acc =
      (acc.1 ++ ns.filter (fun n => !(n.event == "")),
       acc.2 + (ns.filter (fun n => !(n.event == ""))).length) := by
  induction ns generalizing acc with
  | nil => simp
  | cons n ns ih =>
    rw [List.foldl_cons]
    by_cases h : n.event = ""
    · have hb : (n.event == "") = true := by simpa using h
      rw [if_pos hb, ih]
      have hfilter : List.filter (fun n => !(n.event == "")) (n :: ns) =
          List.filter (fun n => !(n.event == "")) ns := by
        simp [List.filter_cons, hb]
      rw [hfilter]
    · have hb : (n.event == "") = false := by simpa using h
      rw [if_neg (by simp [hb]), ih]
      have hfilter : List.filter (fun n => !(n.event == "")) (n :: ns) =
          n :: List.filter (fun n => !(n.event == "")) ns := by
        simp [List.filter_cons, hb]
      rw [hfilter]
      refine Prod.ext ?_ ?_
      · simp
      · simp only [List.length_cons]
        omega

/-- `printNotifications` renders exactly the records with a non-empty
`Event`, in order, and counts them. -/
theorem printNotifications_eq (ns : List Notification) :
    printNotifications ns =
      (ns.filter (fun n => !(n.event == "")),
       (ns.filter (fun n => !(n.event == ""))).length) := by
  simpa [printNotifications] using printNotifications_aux ns ([], 0)

theorem lookup_append {β : Type _} (l₁ l₂ : List (Nat × β)) (k : Nat) :
    (l₁ ++ l₂).lookup k = ((l₁.lookup k).map some).getD (l₂.lookup k) := by
  induction l₁ with
  | nil => simp [List.lookup]
  | cons p l₁ ih =>
    rw [List.cons_append]
    cases p with
    | mk a b =>
      rw [List.lookup_cons, List.lookup_cons]
      cases hk : k == a with
      | true => simp
      | false => simpa using ih

theorem fetchCustomHeader_foldl_lookup (rows : List CustomHeaderRow)
    (acc : List (Nat × CustomHeaderDetails)) (id : Nat) :
    ((rows.foldl
        (fun m h =>
          match m.lookup h.userId with
          | some _ => m
          | none => m ++ [(h.userId, ⟨h.xPlatform, h.xDeviceToken⟩)])
        acc).lookup id) =
      ((acc.lookup id).map some).getD (firstHeaderFor rows id) := by
  induction rows generalizing acc with
  | nil =>
    cases h : acc.lookup id <;> simp [firstHeaderFor, h]
  | cons r rest ih =>
    rw [List.foldl_cons]
    cases hm : acc.lookup r.userId with
    | some v =>
      dsimp only
      rw [ih]
      by_cases hid : r.userId = id
      · subst hid
        rw [hm]
        simp [firstHeaderFor]
      · cases ha : acc.lookup id with
        | some w => simp
        | none =>
          have : (r.userId == id) = false := beq_eq_false_iff_ne.mpr hid
          simp [firstHeaderFor, List.find?_cons, this]
    | none =>
      dsimp only
      rw [ih]
      rw [lookup_append]
      by_cases hid : r.userId = id
      · subst hid
        rw [hm]
        have : (r.userId == r.userId) = true := beq_self_eq_true _
        simp [firstHeaderFor, List.find?_cons, this, List.lookup_cons]
      · have hbeq : (r.userId == id) = false := beq_eq_false_iff_ne.mpr hid
        have hbeq' : (id == r.userId) = false := beq_eq_false_iff_ne.mpr (fun h => hid h.symm)
        cases ha : acc.lookup id with
        | some w => simp
        | none =>
          simp [firstHeaderFor, List.find?_cons, hbeq, List.lookup_cons, hbeq', List.lookup]

/-- The `fetchCustomHeader` fold is first-writer-wins: the value looked up
for an id is the first row of the (sorted) result set carrying that id;
later rows for the same id never overwrite it. -/
theorem fetchCustomHeader_lookup (rows : List CustomHeaderRow) (id : Nat) :
    (fetchCustomHeader rows).lookup id = firstHeaderFor rows id := by
  simpa [fetchCustomHeader] using fetchCustomHeader_foldl_lookup rows [] id

/-- In a result set whose rows with equal ids are ordered by update time
descending, the first row found for an id has the maximal update time among
that id's rows. -/
theorem find?_max_of_sorted (rows : List CustomHeaderRow) (id : Nat) (r : CustomHeaderRow)
    (hsort : rows.Pairwise (fun a b => a.userId = b.userId → b.updatedAt ≤ a.updatedAt))
    (hfind : rows.find? (fun x => x.userId == id) = some r) :
    ∀ x ∈ rows, x.userId = id → x.updatedAt ≤ r.updatedAt := by
  induction rows with
  | nil => simp at hfind
  | cons a rest ih =>
    rw [List.find?_cons] at hfind
    cases ha : a.userId == id with
    | true =>
      rw [ha] at hfind
      have har : a = r := Option.some.inj hfind
      subst har
      intro x hx hxid
      rcases List.mem_cons.mp hx with hx | hx
      · exact hx ▸ le_refl _
      · exact List.rel_of_pairwise_cons hsort hx ((beq_iff_eq.mp ha).trans hxid.symm)
    | false =>
      rw [ha] at hfind
      intro x hx hxid
      rcases List.mem_cons.mp hx with hx | hx
      · exact absurd (hx ▸ hxid) (by simpa using ha)
      · exact ih (List.Pairwise.of_cons hsort) hfind x hx hxid

theorem two_le_length_of_two_mem {l : List γ} {a b : γ}
    (ha : a ∈ l) (hb : b ∈ l) (hab : a ≠ b) : 2 ≤ l.length := by
  match l with
  | [] => simp at ha
  | [x] =>
    rw [List.mem_singleton] at ha hb
    exact absurd (ha.trans hb.symm) hab
  | x :: y :: t =>
    simp only [List.length_cons]
    omega

/-! ### Claim C1 -/

/-- C1 (counterexample): in the credit-card variant, the subject `"9999"`
has two qualifying (DECLINED, in-window) history rows at distinct
timestamps, yet the Candidate Source emits two CandidateEvents for that
key, not exactly one — the claim fails for the credit-card pipeline. -/
theorem C1_counterexample :
    (([⟨"9999", "DECLINED", 100⟩, ⟨"9999", "DECLINED", 150⟩] :
        List CreditCard.CardStatusRow).filter
      (CreditCard.ccQualifies 200 7)).length = 2 ∧
    ((CreditCard.fetchCreditCardRejectedUsers 200 7
        [⟨"9999", "DECLINED", 100⟩, ⟨"9999", "DECLINED", 150⟩]).filter
      (fun u => u.userFlow.mobileNumber == "9999")).length = 2 ∧
    ¬ ((CreditCard.fetchCreditCardRejectedUsers 200 7
        [⟨"9999", "DECLINED", 100⟩, ⟨"9999", "DECLINED", 150⟩]).filter
      (fun u => u.userFlow.mobileNumber == "9999")).length = 1 := by
  decide

/-- C1 (amended): In the Aadhaar variant the claim holds: for every subject
key whose most recent in-window history row classifies to a recognized
event type, the Candidate Source emits exactly one CandidateEvent for that
key, carrying that most recent row's status and timestamp, and that
timestamp is maximal among the key's in-window rows.  The credit-card
variant deduplicates by the (mobile_number, created_at) pair instead, so a
(non-empty) subject key with qualifying rows at two distinct timestamps
yields at least two CandidateEvents. -/
theorem C1_amended_dedup :
    (∀ (now : Int) (flowStatuses : List Aadhaar.FlowStatusRow) (m : String)
        (r : Aadhaar.FlowStatusRow),
      latestByQ (fun x : Aadhaar.FlowStatusRow => x.createdAt)
          ((flowStatuses.filter (Aadhaar.inWindow now)).filter
            (fun x => x.mobileNumber == m)) = some r →
      Aadhaar.recognizedEventTypes.contains
          (Aadhaar.classifyEventType flowStatuses r) = true →
      ((Aadhaar.fetchUsers now flowStatuses).filter
          (fun u => u.userFlow.mobileNumber == m) =
        [⟨⟨r.mobileNumber, r.status, r.createdAt⟩,
          Aadhaar.classifyEventType flowStatuses r⟩] ∧
       ∀ x ∈ flowStatuses.filter (Aadhaar.inWindow now),
         x.mobileNumber = m → x.createdAt ≤ r.createdAt)) ∧
    (∀ (now lookbackDays : Int) (cardStatuses : List CreditCard.CardStatusRow)
        (m : String) (r1 r2 : CreditCard.CardStatusRow),
      m ≠ "" → r1 ∈ cardStatuses → r2 ∈ cardStatuses →
      CreditCard.ccQualifies now lookbackDays r1 = true →
      CreditCard.ccQualifies now lookbackDays r2 = true →
      r1.mobileNumber = m → r2.mobileNumber = m → r1.createdAt ≠ r2.createdAt →
      2 ≤ ((CreditCard.fetchCreditCardRejectedUsers now lookbackDays cardStatuses).filter
            (fun u => u.userFlow.mobileNumber == m)).length) := by
  constructor
  · intro now flowStatuses m r hlatest hrec
    have hrmem : r ∈ (flowStatuses.filter (Aadhaar.inWindow now)).filter
        (fun x => x.mobileNumber == m) := latestByQ_mem _ _ _ hlatest
    have hrm : r.mobileNumber = m := by
      simpa using (List.mem_filter.mp hrmem).2
    have hrw : r ∈ flowStatuses.filter (Aadhaar.inWindow now) :=
      (List.mem_filter.mp hrmem).1
    have hkey : ∀ (k : String) (e : Aadhaar.UserFlowWithEvent),
        (match latestByQ (fun x : Aadhaar.FlowStatusRow => x.createdAt)
            ((flowStatuses.filter (Aadhaar.inWindow now)).filter
              (fun x => x.mobileNumber == k)) with
          | none => none
          | some rr =>
            if Aadhaar.recognizedEventTypes.contains
                (Aadhaar.classifyEventType flowStatuses rr) then
              some (⟨⟨rr.mobileNumber, rr.status, rr.createdAt⟩,
                Aadhaar.classifyEventType flowStatuses rr⟩ : Aadhaar.UserFlowWithEvent)
            else none) = some e → e.userFlow.mobileNumber = k := by
      intro k e hg
      cases hl : latestByQ (fun x : Aadhaar.FlowStatusRow => x.createdAt)
          ((flowStatuses.filter (Aadhaar.inWindow now)).filter
            (fun x => x.mobileNumber == k)) with
      | none =>
        simp only [hl] at hg
        exact absurd hg (by simp)
      | some rr =>
        simp only [hl] at hg
        by_cases hc : Aadhaar.recognizedEventTypes.contains
            (Aadhaar.classifyEventType flowStatuses rr) = true
        · rw [if_pos hc] at hg
          have hrrk : rr.mobileNumber = k := by
            simpa using (List.mem_filter.mp (latestByQ_mem _ _ _ hl)).2
          have he := Option.some.inj hg
          subst he
          exact hrrk
        · rw [if_neg hc] at hg
          exact absurd hg (by simp)
    have hnd := nodup_dedupFirst
      ((flowStatuses.filter (Aadhaar.inWindow now)).map (fun x => x.mobileNumber))
    have hmk : m ∈ dedupFirst
        ((flowStatuses.filter (Aadhaar.inWindow now)).map (fun x => x.mobileNumber)) :=
      (mem_dedupFirst _ _).mpr (List.mem_map.mpr ⟨r, hrw, hrm⟩)
    have hg : (match latestByQ (fun x : Aadhaar.FlowStatusRow => x.createdAt)
          ((flowStatuses.filter (Aadhaar.inWindow now)).filter
            (fun x => x.mobileNumber == m)) with
        | none => none
        | some rr =>
          if Aadhaar.recognizedEventTypes.contains
              (Aadhaar.classifyEventType flowStatuses rr) then
            some (⟨⟨rr.mobileNumber, rr.status, rr.createdAt⟩,
              Aadhaar.classifyEventType flowStatuses rr⟩ : Aadhaar.UserFlowWithEvent)
          else none) = some ⟨⟨r.mobileNumber, r.status, r.createdAt⟩,
            Aadhaar.classifyEventType flowStatuses r⟩ := by
      simp only [hlatest]
      rw [if_pos hrec]
    constructor
    · exact filterMap_filter_key hkey hnd hmk hg
    · intro x hx hxm
      exact latestByQ_max _ _ r hlatest x
        (List.mem_filter.mpr ⟨hx, by simpa using hxm⟩)
  · intro now lookbackDays cardStatuses m r1 r2 hm h1 h2 hq1 hq2 hm1 hm2 hne
    have hmB : (m == "") = false := beq_eq_false_iff_ne.mpr hm
    have hp1 : (m, r1.createdAt) ∈
        (cardStatuses.filter (CreditCard.ccQualifies now lookbackDays)).map
          (fun x => (x.mobileNumber, x.createdAt)) :=
      List.mem_map.mpr ⟨r1, List.mem_filter.mpr ⟨h1, hq1⟩, by rw [hm1]⟩
    have hp2 : (m, r2.createdAt) ∈
        (cardStatuses.filter (CreditCard.ccQualifies now lookbackDays)).map
          (fun x => (x.mobileNumber, x.createdAt)) :=
      List.mem_map.mpr ⟨r2, List.mem_filter.mpr ⟨h2, hq2⟩, by rw [hm2]⟩
    have he1 : (⟨⟨m, "", r1.createdAt⟩, "CREDIT_CARD_REJECTED"⟩ :
        CreditCard.UserFlowWithEvent) ∈
        CreditCard.fetchCreditCardRejectedUsers now lookbackDays cardStatuses :=
      List.mem_filterMap.mpr ⟨(m, r1.createdAt),
        (mem_dedupFirst _ _).mpr hp1, by simp [hmB]⟩
    have he2 : (⟨⟨m, "", r2.createdAt⟩, "CREDIT_CARD_REJECTED"⟩ :
        CreditCard.UserFlowWithEvent) ∈
        CreditCard.fetchCreditCardRejectedUsers now lookbackDays cardStatuses :=
      List.mem_filterMap.mpr ⟨(m, r2.createdAt),
        (mem_dedupFirst _ _).mpr hp2, by simp [hmB]⟩
    have hf1 : (⟨⟨m, "", r1.createdAt⟩, "CREDIT_CARD_REJECTED"⟩ :
        CreditCard.UserFlowWithEvent) ∈
        (CreditCard.fetchCreditCardRejectedUsers now lookbackDays cardStatuses).filter
          (fun u => u.userFlow.mobileNumber == m) :=
      List.mem_filter.mpr ⟨he1, by simp⟩
    have hf2 : (⟨⟨m, "", r2.createdAt⟩, "CREDIT_CARD_REJECTED"⟩ :
        CreditCard.UserFlowWithEvent) ∈
        (CreditCard.fetchCreditCardRejectedUsers now lookbackDays cardStatuses).filter
          (fun u => u.userFlow.mobileNumber == m) :=
      List.mem_filter.mpr ⟨he2, by simp⟩
    exact two_le_length_of_two_mem hf1 hf2
      (fun h => hne (congrArg (fun u : CreditCard.UserFlowWithEvent => u.userFlow.createdAt) h))

/-- C1 (witness): the amended statement applied to concrete stores — the
Aadhaar subject `"M"` with two qualifying rows gets exactly the most recent
one; the credit-card subject `"8888"` with two qualifying rows at distinct
timestamps gets at least two events. -/
theorem C1_witness :
    ((Aadhaar.fetchUsers 200
        [⟨"M", "AADHAAR_INVALID", 100⟩, ⟨"M", "AADHAAR_SUSPENDED", 150⟩]).filter
      (fun u => u.userFlow.mobileNumber == "M") =
      [⟨⟨"M", "AADHAAR_SUSPENDED", 150⟩, "AADHAAR_REJECT"⟩]) ∧
    2 ≤ ((CreditCard.fetchCreditCardRejectedUsers 200 7
        [⟨"8888", "DECLINED", 100⟩, ⟨"8888", "DECLINED", 150⟩]).filter
      (fun u => u.userFlow.mobileNumber == "8888")).length := by
  constructor
  · exact (C1_amended_dedup.1 200
      [⟨"M", "AADHAAR_INVALID", 100⟩, ⟨"M", "AADHAAR_SUSPENDED", 150⟩] "M"
      ⟨"M", "AADHAAR_SUSPENDED", 150⟩ (by decide) (by decide)).1
  · exact C1_amended_dedup.2 200 7
      [⟨"8888", "DECLINED", 100⟩, ⟨"8888", "DECLINED", 150⟩] "8888"
      ⟨"8888", "DECLINED", 100⟩ ⟨"8888", "DECLINED", 150⟩
      (by decide) (by decide) (by decide) (by decide) (by decide)
      (by decide) (by decide) (by decide)

/-! ### Claim C2 -/

/-- C2: for a (userId, eventType) pair — with the pipeline's event types
always non-empty — the resolved attempt number is exactly 1 when the
attempt ledger has no matching record, and exactly N+1 when the
most-recently-updated matching record carries attempt N. -/
theorem C2_attempt_resolution (ledger : List NotificationStatusRow) (userId : Nat)
    (eventName : String) (hev : eventName ≠ "") :
    (ledger.filter (fun x => x.userId == userId && x.eventName == eventName) = [] →
      resolveAttempt (fetchNotificationStatus ledger userId eventName) = 1) ∧
    (∀ r, latestByQ (fun x => x.updatedAt)
        (ledger.filter (fun x => x.userId == userId && x.eventName == eventName)) = some r →
      resolveAttempt (fetchNotificationStatus ledger userId eventName) = r.attempt + 1) := by
  constructor
  · intro hnil
    unfold fetchNotificationStatus
    rw [hnil]
    simp [latestByQ, resolveAttempt]
  · intro r hr
    have hre : r.eventName = eventName := by
      have := (List.mem_filter.mp (latestByQ_mem _ _ _ hr)).2
      simp only [Bool.and_eq_true, beq_iff_eq] at this
      exact this.2
    unfold fetchNotificationStatus
    simp only [hr]
    simp [resolveAttempt, hre, hev]

/-- C2 (witness): with an empty ledger the resolved attempt is 1, and with
a most recent record of attempt 2 the resolved attempt is 3. -/
theorem C2_witness :
    resolveAttempt (fetchNotificationStatus [] 7 "CREDIT_CARD_REJECTED") = 1 ∧
    resolveAttempt (fetchNotificationStatus
      [⟨7, "CREDIT_CARD_REJECTED", 2, 100⟩] 7 "CREDIT_CARD_REJECTED") = 2 + 1 := by
  constructor
  · exact (C2_attempt_resolution [] 7 "CREDIT_CARD_REJECTED" (by decide)).1 (by decide)
  · exact (C2_attempt_resolution [⟨7, "CREDIT_CARD_REJECTED", 2, 100⟩] 7
      "CREDIT_CARD_REJECTED" (by decide)).2 ⟨7, "CREDIT_CARD_REJECTED", 2, 100⟩ (by decide)

/-! ### Claim C3 -/

/-- C3: in both variants, a candidate whose (eventType, resolved attempt)
pair has no configured delivery policy produces no notification record and
no collected error, and removing it from the candidate list leaves the
loop's outputs unchanged (processing of the remaining candidates
continues). -/
theorem C3_no_policy_skip :
    (∀ (ledger : List NotificationStatusRow) (configs : List NotificationConfigRow)
        (userDetails : List UserDetails) (headersMap : List (Nat × CustomHeaderDetails))
        (now : Int) (sourceEnv : String) (uw : CreditCard.UserFlowWithEvent)
        (ud : UserDetails)
        (pre post : List CreditCard.UserFlowWithEvent),
      userDetailsMapLookup userDetails uw.userFlow.mobileNumber = some ud →
      ud.id ≠ 0 →
      configs.find? (fun c => c.eventName == uw.eventType &&
        c.attempt == resolveAttempt (fetchNotificationStatus ledger ud.id uw.eventType)) = none →
      (CreditCard.processOne (pureOracles ledger configs) userDetails headersMap
          now sourceEnv uw = (none, none) ∧
       CreditCard.processUsers (pureOracles ledger configs) userDetails headersMap
          now sourceEnv (pre ++ uw :: post) =
        CreditCard.processUsers (pureOracles ledger configs) userDetails headersMap
          now sourceEnv (pre ++ post))) ∧
    (∀ (ledger : List NotificationStatusRow) (configs : List NotificationConfigRow)
        (userDetails : List UserDetails) (headersMap : List (Nat × CustomHeaderDetails))
        (now : Int) (sourceEnv : String) (uw : Aadhaar.UserFlowWithEvent)
        (ud : UserDetails)
        (pre post : List Aadhaar.UserFlowWithEvent),
      userDetailsMapLookup userDetails uw.userFlow.mobileNumber = some ud →
      ud.id ≠ 0 →
      configs.find? (fun c => c.eventName == uw.eventType &&
        c.attempt == resolveAttempt (fetchNotificationStatus ledger ud.id uw.eventType)) = none →
      (Aadhaar.processOne (pureOracles ledger configs) userDetails headersMap
          now sourceEnv uw = (none, none) ∧
       Aadhaar.processUsers (pureOracles ledger configs) userDetails headersMap
          now sourceEnv (pre ++ uw :: post) =
        Aadhaar.processUsers (pureOracles ledger configs) userDetails headersMap
          now sourceEnv (pre ++ post))) := by
  constructor
  · intro ledger configs userDetails headersMap now sourceEnv uw ud pre post hud hid hcfg
    have hq : queryNotificationConfig configs uw.eventType
        (resolveAttempt (fetchNotificationStatus ledger ud.id uw.eventType)) = ⟨0, "", "", 0⟩ := by
      unfold queryNotificationConfig
      rw [hcfg]
    have h1 : CreditCard.processOne (pureOracles ledger configs) userDetails headersMap
        now sourceEnv uw = (none, none) := by
      simp only [CreditCard.processOne, hud]
      rw [if_neg hid]
      simp only [pureOracles, CreditCard.fetchNotificationConfig, hq]
      simp
    refine ⟨h1, ?_⟩
    have hf1 : (CreditCard.processOne (pureOracles ledger configs) userDetails headersMap
        now sourceEnv uw).1 = none := by rw [h1]
    have hf2 : (CreditCard.processOne (pureOracles ledger configs) userDetails headersMap
        now sourceEnv uw).2 = none := by rw [h1]
    simp only [CreditCard.processUsers, processFold_eq, List.filterMap_append,
      List.filterMap_cons, hf1, hf2]
  · intro ledger configs userDetails headersMap now sourceEnv uw ud pre post hud hid hcfg
    have hq : queryNotificationConfig configs uw.eventType
        (resolveAttempt (fetchNotificationStatus ledger ud.id uw.eventType)) = ⟨0, "", "", 0⟩ := by
      unfold queryNotificationConfig
      rw [hcfg]
    have h1 : Aadhaar.processOne (pureOracles ledger configs) userDetails headersMap
        now sourceEnv uw = (none, none) := by
      simp only [Aadhaar.processOne, hud]
      rw [if_neg hid]
      simp only [pureOracles, Aadhaar.fetchNotificationConfig, hq]
      simp
    refine ⟨h1, ?_⟩
    have hf1 : (Aadhaar.processOne (pureOracles ledger configs) userDetails headersMap
        now sourceEnv uw).1 = none := by rw [h1]
    have hf2 : (Aadhaar.processOne (pureOracles ledger configs) userDetails headersMap
        now sourceEnv uw).2 = none := by rw [h1]
    simp only [Aadhaar.processUsers, processFold_eq, List.filterMap_append,
      List.filterMap_cons, hf1, hf2]

/-- C3 (witness): concrete candidates whose resolved attempt (1) has no
configured policy are skipped with no notification and no error, in both
variants. -/
theorem C3_witness :
    (CreditCard.processOne (pureOracles [] []) [⟨5, "N", "9", "p"⟩] [] 0 ""
        ⟨⟨"9", "", 0⟩, "CREDIT_CARD_REJECTED"⟩ = (none, none) ∧
     CreditCard.processUsers (pureOracles [] []) [⟨5, "N", "9", "p"⟩] [] 0 ""
        ([] ++ ⟨⟨"9", "", 0⟩, "CREDIT_CARD_REJECTED"⟩ :: []) =
      CreditCard.processUsers (pureOracles [] []) [⟨5, "N", "9", "p"⟩] [] 0 "" ([] ++ [])) ∧
    (Aadhaar.processOne (pureOracles [] []) [⟨5, "N", "9", "p"⟩] [] 0 ""
        ⟨⟨"9", "PAN_FORM", 0⟩, "AADHAR_FORM_DROPOFF"⟩ = (none, none) ∧
     Aadhaar.processUsers (pureOracles [] []) [⟨5, "N", "9", "p"⟩] [] 0 ""
        ([] ++ ⟨⟨"9", "PAN_FORM", 0⟩, "AADHAR_FORM_DROPOFF"⟩ :: []) =
      Aadhaar.processUsers (pureOracles [] []) [⟨5, "N", "9", "p"⟩] [] 0 "" ([] ++ [])) := by
  constructor
  · exact C3_no_policy_skip.1 [] [] [⟨5, "N", "9", "p"⟩] [] 0 ""
      ⟨⟨"9", "", 0⟩, "CREDIT_CARD_REJECTED"⟩ ⟨5, "N", "9", "p"⟩ [] []
      (by decide) (by decide) (by decide)
  · exact C3_no_policy_skip.2 [] [] [⟨5, "N", "9", "p"⟩] [] 0 ""
      ⟨⟨"9", "PAN_FORM", 0⟩, "AADHAR_FORM_DROPOFF"⟩ ⟨5, "N", "9", "p"⟩ [] []
      (by decide) (by decide) (by decide)

/-! ### Claim C4 -/

/-- C4: both `buildNotification`s compute `newDelay = (occurredAt +
delaySeconds) - now` (in nanoseconds here; the source stores this count as
signed floating-point seconds, a sign- and zero-preserving conversion) and
return the empty (suppressed) record exactly when `newDelay < 0`; when
`0 ≤ newDelay` — including `newDelay = 0` — the emitted record carries the
policy's event name and the computed delay.  Suppression returns a value,
not an error. -/
theorem C4_delay_semantics :
    (∀ (userFlow : CreditCard.UserFlowResult) (ud : UserDetails)
        (ch : CustomHeaderDetails) (cfg : NotificationConfigDetails)
        (attempt : Int) (ev : String) (now : Int) (sourceEnv : String),
      cfg.eventName ≠ "" →
      ((CreditCard.buildNotification userFlow ud ch cfg attempt ev now sourceEnv =
          emptyNotification ↔ userFlow.createdAt + cfg.delay * 1000000000 - now < 0) ∧
       (0 ≤ userFlow.createdAt + cfg.delay * 1000000000 - now →
         (CreditCard.buildNotification userFlow ud ch cfg attempt ev now sourceEnv).delay =
            userFlow.createdAt + cfg.delay * 1000000000 - now ∧
         (CreditCard.buildNotification userFlow ud ch cfg attempt ev now sourceEnv).event =
            cfg.eventName))) ∧
    (∀ (userFlow : Aadhaar.UserFlowResult) (ud : UserDetails)
        (ch : CustomHeaderDetails) (cfg : NotificationConfigDetails)
        (attempt : Int) (ev : String) (now : Int) (sourceEnv : String),
      cfg.eventName ≠ "" →
      ((Aadhaar.buildNotification userFlow ud ch cfg attempt ev now sourceEnv =
          emptyNotification ↔ userFlow.createdAt + cfg.delay * 1000000000 - now < 0) ∧
       (0 ≤ userFlow.createdAt + cfg.delay * 1000000000 - now →
         (Aadhaar.buildNotification userFlow ud ch cfg attempt ev now sourceEnv).delay =
            userFlow.createdAt + cfg.delay * 1000000000 - now ∧
         (Aadhaar.buildNotification userFlow ud ch cfg attempt ev now sourceEnv).event =
            cfg.eventName))) := by
  constructor
  · intro userFlow ud ch cfg attempt ev now sourceEnv hcfg
    by_cases h : userFlow.createdAt + cfg.delay * 1000000000 - now < 0
    · refine ⟨⟨fun _ => h, fun _ => ?_⟩, fun h0 => absurd h0 (by omega)⟩
      simp only [CreditCard.buildNotification]
      rw [if_pos h]
    · refine ⟨⟨fun heq => ?_, fun hlt => absurd hlt h⟩, fun _ => ?_⟩
      · have hev2 := congrArg Notification.event heq
        simp only [CreditCard.buildNotification] at hev2
        rw [if_neg h] at hev2
        simp [emptyNotification] at hev2
        exact absurd hev2 hcfg
      · constructor
        · simp only [CreditCard.buildNotification]
          rw [if_neg h]
        · simp only [CreditCard.buildNotification]
          rw [if_neg h]
  · intro userFlow ud ch cfg attempt ev now sourceEnv hcfg
    by_cases h : userFlow.createdAt + cfg.delay * 1000000000 - now < 0
    · refine ⟨⟨fun _ => h, fun _ => ?_⟩, fun h0 => absurd h0 (by omega)⟩
      simp only [Aadhaar.buildNotification]
      rw [if_pos h]
    · refine ⟨⟨fun heq => ?_, fun hlt => absurd hlt h⟩, fun _ => ?_⟩
      · have hev2 := congrArg Notification.event heq
        simp only [Aadhaar.buildNotification] at hev2
        rw [if_neg h] at hev2
        simp [emptyNotification] at hev2
        exact absurd hev2 hcfg
      · constructor
        · simp only [Aadhaar.buildNotification]
          rw [if_neg h]
        · simp only [Aadhaar.buildNotification]
          rw [if_neg h]

/-- C4 (witness): at `newDelay = 0` the record is emitted with delay 0; at
`newDelay = -10^7` nanoseconds (i.e. -0.01 seconds) it is suppressed — in
both variants. -/
theorem C4_witness :
    ((CreditCard.buildNotification ⟨"9", "", 100⟩ ⟨3, "N", "9", "p"⟩ ⟨"ios", "tok"⟩
        ⟨0, "push", "E", 4⟩ 1 "E" 100 "src").event = "E" ∧
     (CreditCard.buildNotification ⟨"9", "", 100⟩ ⟨3, "N", "9", "p"⟩ ⟨"ios", "tok"⟩
        ⟨0, "push", "E", 4⟩ 1 "E" 100 "src").delay = 100 + 0 * 1000000000 - 100) ∧
    (CreditCard.buildNotification ⟨"9", "", 100⟩ ⟨3, "N", "9", "p"⟩ ⟨"ios", "tok"⟩
        ⟨0, "push", "E", 4⟩ 1 "E" 10000100 "src" = emptyNotification) ∧
    ((Aadhaar.buildNotification ⟨"9", "S", 100⟩ ⟨3, "N", "9", "p"⟩ ⟨"ios", "tok"⟩
        ⟨0, "push", "E", 4⟩ 1 "E" 100 "src").event = "E" ∧
     (Aadhaar.buildNotification ⟨"9", "S", 100⟩ ⟨3, "N", "9", "p"⟩ ⟨"ios", "tok"⟩
        ⟨0, "push", "E", 4⟩ 1 "E" 100 "src").delay = 100 + 0 * 1000000000 - 100) ∧
    (Aadhaar.buildNotification ⟨"9", "S", 100⟩ ⟨3, "N", "9", "p"⟩ ⟨"ios", "tok"⟩
        ⟨0, "push", "E", 4⟩ 1 "E" 10000100 "src" = emptyNotification) := by
  refine ⟨⟨?_, ?_⟩, ?_, ⟨?_, ?_⟩, ?_⟩
  · exact ((C4_delay_semantics.1 ⟨"9", "", 100⟩ ⟨3, "N", "9", "p"⟩ ⟨"ios", "tok"⟩
      ⟨0, "push", "E", 4⟩ 1 "E" 100 "src" (by decide)).2 (by decide)).2
  · exact ((C4_delay_semantics.1 ⟨"9", "", 100⟩ ⟨3, "N", "9", "p"⟩ ⟨"ios", "tok"⟩
      ⟨0, "push", "E", 4⟩ 1 "E" 100 "src" (by decide)).2 (by decide)).1
  · exact (C4_delay_semantics.1 ⟨"9", "", 100⟩ ⟨3, "N", "9", "p"⟩ ⟨"ios", "tok"⟩
      ⟨0, "push", "E", 4⟩ 1 "E" 10000100 "src" (by decide)).1.mpr (by decide)
  · exact ((C4_delay_semantics.2 ⟨"9", "S", 100⟩ ⟨3, "N", "9", "p"⟩ ⟨"ios", "tok"⟩
      ⟨0, "push", "E", 4⟩ 1 "E" 100 "src" (by decide)).2 (by decide)).2
  · exact ((C4_delay_semantics.2 ⟨"9", "S", 100⟩ ⟨3, "N", "9", "p"⟩ ⟨"ios", "tok"⟩
      ⟨0, "push", "E", 4⟩ 1 "E" 100 "src" (by decide)).2 (by decide)).1
  · exact (C4_delay_semantics.2 ⟨"9", "S", 100⟩ ⟨3, "N", "9", "p"⟩ ⟨"ios", "tok"⟩
      ⟨0, "push", "E", 4⟩ 1 "E" 10000100 "src" (by decide)).1.mpr (by decide)

/-! ### Claim C5 -/

/-- C5 (counterexample): a concrete run of the per-candidate loop in which
a past-due candidate is suppressed: the loop appends the empty record, so
the list handed to the Reporter still contains a suppressed entry (it is
not "already filtered"), and the Reporter renders none of its one input
record — it performs the filtering itself. -/
theorem C5_counterexample :
    (CreditCard.processUsers (pureOracles [] [⟨"CREDIT_CARD_REJECTED", 1, 0, "push", 4⟩])
        [⟨3, "N", "9", "p"⟩] [] 10000100 ""
        [⟨⟨"9", "", 100⟩, "CREDIT_CARD_REJECTED"⟩]).1 = [emptyNotification] ∧
    emptyNotification.event = "" ∧
    printNotifications
      (CreditCard.processUsers (pureOracles [] [⟨"CREDIT_CARD_REJECTED", 1, 0, "push", 4⟩])
        [⟨3, "N", "9", "p"⟩] [] 10000100 ""
        [⟨⟨"9", "", 100⟩, "CREDIT_CARD_REJECTED"⟩]).1 = ([], 0) := by
  decide

/-- C5 (amended): suppressed candidates reach the Reporter as empty records
in its input list; the Reporter itself filters, skipping exactly the
records whose `Event` is empty, and renders every record with a non-empty
`Event`, in input order. -/
theorem C5_amended_reporter_filters (ns : List Notification) :
    printNotifications ns =
      (ns.filter (fun n => !(n.event == "")),
       (ns.filter (fun n => !(n.event == ""))).length) ∧
    ∀ n ∈ ns, n.event ≠ "" → n ∈ (printNotifications ns).1 := by
  refine ⟨printNotifications_eq ns, fun n hn hne => ?_⟩
  rw [printNotifications_eq]
  exact List.mem_filter.mpr ⟨hn, by simpa using hne⟩

/-- C5 (witness): the amended statement at a concrete two-record list with
one suppressed entry: the non-empty record is rendered, the empty one is
skipped. -/
theorem C5_witness :
    printNotifications [emptyNotification,
        ⟨"E", 0, 3, "9", "p", "DECLINED", 1, "src", "push", [("Name", "N")], "tok", 4⟩] =
      ([⟨"E", 0, 3, "9", "p", "DECLINED", 1, "src", "push", [("Name", "N")], "tok", 4⟩], 1) ∧
    (⟨"E", 0, 3, "9", "p", "DECLINED", 1, "src", "push", [("Name", "N")], "tok", 4⟩ :
        Notification) ∈
      (printNotifications [emptyNotification,
        ⟨"E", 0, 3, "9", "p", "DECLINED", 1, "src", "push", [("Name", "N")], "tok", 4⟩]).1 := by
  constructor
  · have h := (C5_amended_reporter_filters [emptyNotification,
      ⟨"E", 0, 3, "9", "p", "DECLINED", 1, "src", "push", [("Name", "N")], "tok", 4⟩]).1
    rw [h]
    decide
  · exact (C5_amended_reporter_filters [emptyNotification,
      ⟨"E", 0, 3, "9", "p", "DECLINED", 1, "src", "push", [("Name", "N")], "tok", 4⟩]).2
      ⟨"E", 0, 3, "9", "p", "DECLINED", 1, "src", "push", [("Name", "N")], "tok", 4⟩
      (by decide) (by decide)

/-! ### Claim C6 -/

/-- C6 (counterexample): in the Aadhaar variant a policy (config) lookup
failure is swallowed by `fetchNotificationConfig` (`return
NotificationConfigDetails{}, nil`): with a config oracle that fails, the
candidate is skipped but the collected error list stays empty — the failure
is silently dropped, contradicting the claim that every such failure is
appended and reported. -/
theorem C6_counterexample :
    (Oracles.mk (fun uid ev => .ok (fetchNotificationStatus [] uid ev))
        (fun _ _ => .error "config query failed")).config "AADHAAR_REJECT" 1 =
      .error "config query failed" ∧
    Aadhaar.processUsers
      (Oracles.mk (fun uid ev => .ok (fetchNotificationStatus [] uid ev))
        (fun _ _ => .error "config query failed"))
      [⟨3, "N", "9", "p"⟩] [] 0 ""
      [⟨⟨"9", "AADHAAR_SUSPENDED", 100⟩, "AADHAAR_REJECT"⟩] = ([], []) := by
  exact ⟨rfl, rfl⟩

/-- C6 (amended): in the credit-card variant, a per-candidate ledger or
policy lookup failure makes only that candidate produce an error (and no
record); the loop collects, per candidate in order, exactly the error that
candidate produced, and the numbered end-of-run report lists exactly the
collected errors once each.  In the Aadhaar variant this holds for ledger
lookups, but a policy lookup failure is swallowed: the candidate is skipped
with no error collected. -/
theorem C6_amended_error_collection :
    (∀ (o : Oracles) (d : List UserDetails) (h : List (Nat × CustomHeaderDetails))
        (now : Int) (src : String) (uw : CreditCard.UserFlowWithEvent)
        (ud : UserDetails) (e : String),
      userDetailsMapLookup d uw.userFlow.mobileNumber = some ud → ud.id ≠ 0 →
      o.status ud.id uw.eventType = .error e →
      CreditCard.processOne o d h now src uw = (none, some e)) ∧
    (∀ (o : Oracles) (d : List UserDetails) (h : List (Nat × CustomHeaderDetails))
        (now : Int) (src : String) (uw : CreditCard.UserFlowWithEvent)
        (ud : UserDetails) (s : NotificationStatusDetails) (e : String),
      userDetailsMapLookup d uw.userFlow.mobileNumber = some ud → ud.id ≠ 0 →
      o.status ud.id uw.eventType = .ok s →
      o.config uw.eventType (resolveAttempt s) = .error e →
      CreditCard.processOne o d h now src uw = (none, some e)) ∧
    (∀ (o : Oracles) (d : List UserDetails) (h : List (Nat × CustomHeaderDetails))
        (now : Int) (src : String) (users : List CreditCard.UserFlowWithEvent),
      (CreditCard.processUsers o d h now src users).2 =
        users.filterMap (fun uw => (CreditCard.processOne o d h now src uw).2)) ∧
    (∀ errs : List String, (reportErrors errs).map Prod.snd = errs) ∧
    (∀ (o : Oracles) (d : List UserDetails) (h : List (Nat × CustomHeaderDetails))
        (now : Int) (src : String) (uw : Aadhaar.UserFlowWithEvent)
        (ud : UserDetails) (e : String),
      userDetailsMapLookup d uw.userFlow.mobileNumber = some ud → ud.id ≠ 0 →
      o.status ud.id uw.eventType = .error e →
      Aadhaar.processOne o d h now src uw = (none, some e)) ∧
    (∀ (o : Oracles) (d : List UserDetails) (h : List (Nat × CustomHeaderDetails))
        (now : Int) (src : String) (uw : Aadhaar.UserFlowWithEvent)
        (ud : UserDetails) (s : NotificationStatusDetails) (e : String),
      userDetailsMapLookup d uw.userFlow.mobileNumber = some ud → ud.id ≠ 0 →
      o.status ud.id uw.eventType = .ok s →
      o.config uw.eventType (resolveAttempt s) = .error e →
      Aadhaar.processOne o d h now src uw = (none, none)) := by
  refine ⟨?_, ?_, ?_, ?_, ?_, ?_⟩
  · intro o d h now src uw ud e hud hid hstat
    simp only [CreditCard.processOne, hud]
    rw [if_neg hid]
    simp only [hstat]
  · intro o d h now src uw ud s e hud hid hstat hconf
    simp only [CreditCard.processOne, hud]
    rw [if_neg hid]
    simp only [hstat, hconf, CreditCard.fetchNotificationConfig]
  · intro o d h now src users
    simp [CreditCard.processUsers, processFold_eq]
  · intro errs
    unfold reportErrors
    rw [List.map_map]
    have hcomp : (Prod.snd ∘ fun p : Nat × String => (p.1 + 1, p.2)) = Prod.snd := by
      funext p
      rfl
    rw [hcomp, List.enum_map_snd]
  · intro o d h now src uw ud e hud hid hstat
    simp only [Aadhaar.processOne, hud]
    rw [if_neg hid]
    simp only [hstat]
  · intro o d h now src uw ud s e hud hid hstat hconf
    simp only [Aadhaar.processOne, hud]
    rw [if_neg hid]
    simp only [hstat, hconf, Aadhaar.fetchNotificationConfig]
    simp

/-- C6 (witness): the amended statement at concrete inputs — a failing
ledger lookup is collected in both variants, a failing policy lookup is
collected in the credit-card variant and silently swallowed in the Aadhaar
variant. -/
theorem C6_witness :
    CreditCard.processOne
      (Oracles.mk (fun _ _ => .error "status down") (fun _ _ => .ok ⟨0, "", "", 0⟩))
      [⟨3, "N", "9", "p"⟩] [] 0 "" ⟨⟨"9", "", 100⟩, "CREDIT_CARD_REJECTED"⟩ =
        (none, some "status down") ∧
    CreditCard.processOne
      (Oracles.mk (fun uid ev => .ok (fetchNotificationStatus [] uid ev))
        (fun _ _ => .error "config down"))
      [⟨3, "N", "9", "p"⟩] [] 0 "" ⟨⟨"9", "", 100⟩, "CREDIT_CARD_REJECTED"⟩ =
        (none, some "config down") ∧
    Aadhaar.processOne
      (Oracles.mk (fun _ _ => .error "status down") (fun _ _ => .ok ⟨0, "", "", 0⟩))
      [⟨3, "N", "9", "p"⟩] [] 0 "" ⟨⟨"9", "AADHAAR_SUSPENDED", 100⟩, "AADHAAR_REJECT"⟩ =
        (none, some "status down") ∧
    Aadhaar.processOne
      (Oracles.mk (fun uid ev => .ok (fetchNotificationStatus [] uid ev))
        (fun _ _ => .error "config down"))
      [⟨3, "N", "9", "p"⟩] [] 0 "" ⟨⟨"9", "AADHAAR_SUSPENDED", 100⟩, "AADHAAR_REJECT"⟩ =
        (none, none) ∧
    (reportErrors ["status down", "config down"]).map Prod.snd =
      ["status down", "config down"] := by
  refine ⟨?_, ?_, ?_, ?_, ?_⟩
  · exact C6_amended_error_collection.1
      (Oracles.mk (fun _ _ => .error "status down") (fun _ _ => .ok ⟨0, "", "", 0⟩))
      [⟨3, "N", "9", "p"⟩] [] 0 "" ⟨⟨"9", "", 100⟩, "CREDIT_CARD_REJECTED"⟩
      ⟨3, "N", "9", "p"⟩ "status down" (by decide) (by decide) rfl
  · exact C6_amended_error_collection.2.1
      (Oracles.mk (fun uid ev => .ok (fetchNotificationStatus [] uid ev))
        (fun _ _ => .error "config down"))
      [⟨3, "N", "9", "p"⟩] [] 0 "" ⟨⟨"9", "", 100⟩, "CREDIT_CARD_REJECTED"⟩
      ⟨3, "N", "9", "p"⟩ ⟨"", 0⟩ "config down" (by decide) (by decide) rfl rfl
  · exact C6_amended_error_collection.2.2.2.2.1
      (Oracles.mk (fun _ _ => .error "status down") (fun _ _ => .ok ⟨0, "", "", 0⟩))
      [⟨3, "N", "9", "p"⟩] [] 0 "" ⟨⟨"9", "AADHAAR_SUSPENDED", 100⟩, "AADHAAR_REJECT"⟩
      ⟨3, "N", "9", "p"⟩ "status down" (by decide) (by decide) rfl
  · exact C6_amended_error_collection.2.2.2.2.2
      (Oracles.mk (fun uid ev => .ok (fetchNotificationStatus [] uid ev))
        (fun _ _ => .error "config down"))
      [⟨3, "N", "9", "p"⟩] [] 0 "" ⟨⟨"9", "AADHAAR_SUSPENDED", 100⟩, "AADHAAR_REJECT"⟩
      ⟨3, "N", "9", "p"⟩ ⟨"", 0⟩ "config down" (by decide) (by decide) rfl rfl
  · exact C6_amended_error_collection.2.2.2.1 ["status down", "config down"]

/-! ### Claim C7 -/

/-- C7: a candidate whose resolved identity has no device-metadata entry is
processed exactly as if the defined placeholder header were present (it is
never dropped for this reason), and any non-suppressed record produced for
it carries the placeholder device token — `"Not Available"` in the
credit-card variant, `""` in the Aadhaar variant. -/
theorem C7_placeholder_device_token :
    (∀ (o : Oracles) (d : List UserDetails) (h : List (Nat × CustomHeaderDetails))
        (now : Int) (src : String) (uw : CreditCard.UserFlowWithEvent) (ud : UserDetails),
      userDetailsMapLookup d uw.userFlow.mobileNumber = some ud → ud.id ≠ 0 →
      h.lookup ud.id = none →
      (CreditCard.processOne o d h now src uw =
        CreditCard.processOne o d ((ud.id, ⟨"Unknown", "Not Available"⟩) :: h) now src uw ∧
       ∀ n, (CreditCard.processOne o d h now src uw).1 = some n → n.event ≠ "" →
         n.deviceToken = "Not Available")) ∧
    (∀ (o : Oracles) (d : List UserDetails) (h : List (Nat × CustomHeaderDetails))
        (now : Int) (src : String) (uw : Aadhaar.UserFlowWithEvent) (ud : UserDetails),
      userDetailsMapLookup d uw.userFlow.mobileNumber = some ud → ud.id ≠ 0 →
      h.lookup ud.id = none →
      (Aadhaar.processOne o d h now src uw =
        Aadhaar.processOne o d ((ud.id, ⟨"Unknown", ""⟩) :: h) now src uw ∧
       ∀ n, (Aadhaar.processOne o d h now src uw).1 = some n → n.event ≠ "" →
         n.deviceToken = "")) := by
  constructor
  · intro o d h now src uw ud hud hid hh
    have hlk : ((ud.id, (⟨"Unknown", "Not Available"⟩ : CustomHeaderDetails)) :: h).lookup ud.id =
        some ⟨"Unknown", "Not Available"⟩ := by
      simp [List.lookup_cons]
    constructor
    · simp only [CreditCard.processOne, hud, hh, hlk]
    · intro n hsome hevent
      simp only [CreditCard.processOne, hud, hh] at hsome
      rw [if_neg hid] at hsome
      cases hst : o.status ud.id uw.eventType with
      | error e =>
        simp only [hst] at hsome
        simp at hsome
      | ok s =>
        simp only [hst] at hsome
        cases hcf : o.config uw.eventType (resolveAttempt s) with
        | error e =>
          simp only [hcf, CreditCard.fetchNotificationConfig] at hsome
          simp at hsome
        | ok c =>
          simp only [hcf, CreditCard.fetchNotificationConfig] at hsome
          by_cases hce : c.eventName = ""
          · rw [if_pos hce] at hsome
            simp at hsome
          · rw [if_neg hce] at hsome
            simp only at hsome
            have hn := Option.some.inj hsome
            subst hn
            by_cases hd : uw.userFlow.createdAt + c.delay * 1000000000 - now < 0
            · exfalso
              apply hevent
              simp only [CreditCard.buildNotification]
              rw [if_pos hd]
              rfl
            · simp only [CreditCard.buildNotification]
              rw [if_neg hd]
  · intro o d h now src uw ud hud hid hh
    have hlk : ((ud.id, (⟨"Unknown", ""⟩ : CustomHeaderDetails)) :: h).lookup ud.id =
        some ⟨"Unknown", ""⟩ := by
      simp [List.lookup_cons]
    constructor
    · simp only [Aadhaar.processOne, hud, hh, hlk]
    · intro n hsome hevent
      simp only [Aadhaar.processOne, hud, hh] at hsome
      rw [if_neg hid] at hsome
      cases hst : o.status ud.id uw.eventType with
      | error e =>
        simp only [hst] at hsome
        simp at hsome
      | ok s =>
        simp only [hst] at hsome
        cases hcf : o.config uw.eventType (resolveAttempt s) with
        | error e =>
          simp only [hcf, Aadhaar.fetchNotificationConfig] at hsome
          simp at hsome
        | ok c =>
          simp only [hcf, Aadhaar.fetchNotificationConfig] at hsome
          by_cases hce : c.eventName = ""
          · rw [if_pos hce] at hsome
            simp at hsome
          · rw [if_neg hce] at hsome
            dsimp only at hsome
            rw [if_neg hce] at hsome
            dsimp only at hsome
            have hn := Option.some.inj hsome
            subst hn
            by_cases hd : uw.userFlow.createdAt + c.delay * 1000000000 - now < 0
            · exfalso
              apply hevent
              simp only [Aadhaar.buildNotification]
              rw [if_pos hd]
              rfl
            · simp only [Aadhaar.buildNotification]
              rw [if_neg hd]

/-- C7 (witness): concrete candidates with no header row: the produced
records carry `"Not Available"` (credit-card) and `""` (Aadhaar). -/
theorem C7_witness :
    CreditCard.processOne (pureOracles [] [⟨"CREDIT_CARD_REJECTED", 1, 0, "push", 4⟩])
      [⟨3, "N", "9", "p"⟩] [] 100 "s" ⟨⟨"9", "", 100⟩, "CREDIT_CARD_REJECTED"⟩ =
      CreditCard.processOne (pureOracles [] [⟨"CREDIT_CARD_REJECTED", 1, 0, "push", 4⟩])
      [⟨3, "N", "9", "p"⟩] [(3, ⟨"Unknown", "Not Available"⟩)] 100 "s"
        ⟨⟨"9", "", 100⟩, "CREDIT_CARD_REJECTED"⟩ ∧
    (⟨"CREDIT_CARD_REJECTED", 0, 3, "9", "p", "DECLINED", 1, "s", "push",
        [("Name", "N"), ("Reasons", "")], "Not Available", 4⟩ : Notification).deviceToken =
      "Not Available" ∧
    (CreditCard.processOne (pureOracles [] [⟨"CREDIT_CARD_REJECTED", 1, 0, "push", 4⟩])
      [⟨3, "N", "9", "p"⟩] [] 100 "s" ⟨⟨"9", "", 100⟩, "CREDIT_CARD_REJECTED"⟩).1 =
      some ⟨"CREDIT_CARD_REJECTED", 0, 3, "9", "p", "DECLINED", 1, "s", "push",
        [("Name", "N"), ("Reasons", "")], "Not Available", 4⟩ ∧
    Aadhaar.processOne (pureOracles [] [⟨"AADHAAR_REJECT", 1, 0, "push", 4⟩])
      [⟨3, "N", "9", "p"⟩] [] 100 "s" ⟨⟨"9", "AADHAAR_SUSPENDED", 100⟩, "AADHAAR_REJECT"⟩ =
      Aadhaar.processOne (pureOracles [] [⟨"AADHAAR_REJECT", 1, 0, "push", 4⟩])
      [⟨3, "N", "9", "p"⟩] [(3, ⟨"Unknown", ""⟩)] 100 "s"
        ⟨⟨"9", "AADHAAR_SUSPENDED", 100⟩, "AADHAAR_REJECT"⟩ := by
  refine ⟨?_, ?_, ?_, ?_⟩
  · exact (C7_placeholder_device_token.1 (pureOracles [] [⟨"CREDIT_CARD_REJECTED", 1, 0, "push", 4⟩])
      [⟨3, "N", "9", "p"⟩] [] 100 "s" ⟨⟨"9", "", 100⟩, "CREDIT_CARD_REJECTED"⟩
      ⟨3, "N", "9", "p"⟩ (by decide) (by decide) (by decide)).1
  · exact (C7_placeholder_device_token.1 (pureOracles [] [⟨"CREDIT_CARD_REJECTED", 1, 0, "push", 4⟩])
      [⟨3, "N", "9", "p"⟩] [] 100 "s" ⟨⟨"9", "", 100⟩, "CREDIT_CARD_REJECTED"⟩
      ⟨3, "N", "9", "p"⟩ (by decide) (by decide) (by decide)).2
      ⟨"CREDIT_CARD_REJECTED", 0, 3, "9", "p", "DECLINED", 1, "s", "push",
        [("Name", "N"), ("Reasons", "")], "Not Available", 4⟩ (by decide) (by decide)
  · decide
  · exact (C7_placeholder_device_token.2 (pureOracles [] [⟨"AADHAAR_REJECT", 1, 0, "push", 4⟩])
      [⟨3, "N", "9", "p"⟩] [] 100 "s" ⟨⟨"9", "AADHAAR_SUSPENDED", 100⟩, "AADHAAR_REJECT"⟩
      ⟨3, "N", "9", "p"⟩ (by decide) (by decide) (by decide)).1

/-! ### Claim C8 -/

/-- C8: with the device-metadata result set sorted by update time
descending within each identity, the map keeps the first row encountered
for each id — which then has the maximal update time, ties resolved to the
earliest-positioned row — and in general (sorted or not) an entry once
inserted is never overwritten: the lookup always returns the first row for
the id, never a later one. -/
theorem C8_device_metadata_first_wins
    (rows : List CustomHeaderRow) (id : Nat) (r : CustomHeaderRow)
    (hsort : rows.Pairwise (fun a b => a.userId = b.userId → b.updatedAt ≤ a.updatedAt))
    (hfind : rows.find? (fun x => x.userId == id) = some r) :
    ((fetchCustomHeader rows).lookup id = some ⟨r.xPlatform, r.xDeviceToken⟩ ∧
     ∀ x ∈ rows, x.userId = id → x.updatedAt ≤ r.updatedAt) ∧
    ∀ (rowsAny : List CustomHeaderRow) (idAny : Nat),
      (fetchCustomHeader rowsAny).lookup idAny = firstHeaderFor rowsAny idAny := by
  refine ⟨⟨?_, find?_max_of_sorted rows id r hsort hfind⟩,
    fun rowsAny idAny => fetchCustomHeader_lookup rowsAny idAny⟩
  rw [fetchCustomHeader_lookup, firstHeaderFor, hfind]
  rfl

/-- C8 (witness): two rows for id 1 sorted by update time descending — the
map keeps the first (most recent) row's token. -/
theorem C8_witness :
    (fetchCustomHeader [⟨1, "ios", "tok2", 200⟩, ⟨1, "android", "tok1", 100⟩]).lookup 1 =
      some ⟨"ios", "tok2"⟩ ∧
    ∀ x ∈ ([⟨1, "ios", "tok2", 200⟩, ⟨1, "android", "tok1", 100⟩] :
        List CustomHeaderRow), x.userId = 1 → x.updatedAt ≤ 200 := by
  have h := C8_device_metadata_first_wins
    [⟨1, "ios", "tok2", 200⟩, ⟨1, "android", "tok1", 100⟩] 1 ⟨1, "ios", "tok2", 200⟩
    (by decide) (by decide)
  exact ⟨h.1.1, h.1.2⟩

/-! ### Claim C9 -/

/-- C9: with an empty candidate set, both runs terminate successfully
(`.ok`, i.e. no fatal error / zero exit) with no rendered notifications,
a printed count of zero, and no reported errors — the credit-card variant
via its early return, the Aadhaar variant by running the rest of the
pipeline over empty key sets. -/
theorem C9_empty_candidates_success
    (userRows : List UserDetails) (headerRows : List CustomHeaderRow)
    (o : Oracles) (now : Int) (sourceEnv : String) :
    CreditCard.run (.ok []) userRows headerRows o now sourceEnv = .ok ⟨[], 0, []⟩ ∧
    Aadhaar.run (.ok []) userRows headerRows o now sourceEnv = .ok ⟨[], 0, []⟩ :=
  ⟨rfl, rfl⟩

/-! ### Claim C10 -/

/-- C10: the presence of an attempt-ledger record is detected solely by the
returned `event_name` being non-empty: any returned status whose
`event_name` is empty resolves to attempt 1, and in particular a ledger row
whose `event_name` field is the empty string is returned with its `attempt`
field intact (some N) yet still resolves to attempt 1. -/
theorem C10_empty_event_name_attempt_one :
    (∀ s : NotificationStatusDetails, s.eventName = "" → resolveAttempt s = 1) ∧
    (∀ (ledger : List NotificationStatusRow) (userId : Nat) (r : NotificationStatusRow),
      latestByQ (fun x => x.updatedAt)
        (ledger.filter (fun x => x.userId == userId && x.eventName == "")) = some r →
      (fetchNotificationStatus ledger userId "").attempt = r.attempt ∧
      resolveAttempt (fetchNotificationStatus ledger userId "") = 1) := by
  constructor
  · intro s hs
    simp [resolveAttempt, hs]
  · intro ledger userId r hr
    have hre : r.eventName = "" := by
      have := (List.mem_filter.mp (latestByQ_mem _ _ _ hr)).2
      simp only [Bool.and_eq_true, beq_iff_eq] at this
      exact this.2
    constructor
    · unfold fetchNotificationStatus
      simp only [hr]
    · unfold fetchNotificationStatus
      simp only [hr]
      simp [resolveAttempt, hre]

/-- C10 (witness): a ledger row with empty `event_name` and attempt 5 is
returned with attempt 5 but resolves to attempt 1. -/
theorem C10_witness :
    (fetchNotificationStatus [⟨7, "", 5, 100⟩] 7 "").attempt = 5 ∧
    resolveAttempt (fetchNotificationStatus [⟨7, "", 5, 100⟩] 7 "") = 1 := by
  have h := C10_empty_event_name_attempt_one.2 [⟨7, "", 5, 100⟩] 7 ⟨7, "", 5, 100⟩ (by decide)
  exact ⟨h.1, h.2⟩
